import Mathlib

/-!
# Verification of the price-checker aggregation endpoint

A shallow embedding of `src/api/search.js` (a Vercel serverless endpoint that
aggregates product offers from a shopping-search provider with a catalog
fallback), together with proofs of the specification's claims about it.

Modelling conventions:
* JavaScript values are modelled by the inductive `JSVal` (mutually with
  `JSList`/`JSFields` so that every function on them is structurally
  recursive and kernel-reducible).
* JS numbers are modelled as exact rationals `JQ` (an integer numerator with
  a positive natural denominator, kept in lowest terms by the arithmetic).
  All numbers that flow through this program originate from JSON decimal
  literals or from `parseFloat` on decimal strings, which this idealisation
  represents exactly; double rounding, `NaN` and overflow to `Infinity` are
  outside the modelled fragment.
* Fallible JS code (property access on `null`/`undefined`, a thrown
  `Error`, a rejected `fetch`) is modelled with `Except String`.
* The outside world (clock, environment variables, the two upstream HTTP
  services) is passed to the handler explicitly as a `World` value; the
  process-global cache `Map` is threaded in and out of the handler.
-/

/-! ## Exact rational numbers for JS number values -/

/-- A JS number as an exact rational: numerator over a positive natural
denominator.  Arithmetic goes through `JQ.norm`, which reduces to lowest
terms, so values produced by the model compare correctly with `=`. -/
structure JQ where
  num : Int
  den : Nat
  dpos : den ≠ 0 := by decide
deriving DecidableEq

/-- The fraction `n / d` in lowest terms (total: the never-occurring `d = 0` gives 0). -/
def JQ.norm (n : Int) (d : Nat) : JQ :=
  if h : d = 0 then ⟨0, 1, by decide⟩
  else
    let g := Nat.gcd n.natAbs d
    have hg : g ∣ d := Nat.gcd_dvd_right _ _
    have hg0 : g ≠ 0 := fun h0 => h (Nat.eq_zero_of_gcd_eq_zero_right h0)
    ⟨n / g, d / g, Nat.pos_iff_ne_zero.mp
      (Nat.div_pos (Nat.le_of_dvd (Nat.pos_of_ne_zero h) hg) (Nat.pos_of_ne_zero hg0))⟩

/-- Embed a natural number. -/
def JQ.ofNat (n : Nat) : JQ := ⟨n, 1, by decide⟩

/-- Comparison `a ≤ b`, by cross-multiplication (denominators are positive). -/
def JQ.le (a b : JQ) : Prop := a.num * b.den ≤ b.num * a.den

instance : DecidableRel JQ.le := fun a b =>
  inferInstanceAs (Decidable (a.num * b.den ≤ b.num * a.den))

/-- Addition. -/
def JQ.add (a b : JQ) : JQ := JQ.norm (a.num * b.den + b.num * a.den) (a.den * b.den)

/-- Negation (keeps lowest terms). -/
def JQ.neg (a : JQ) : JQ := ⟨-a.num, a.den, a.dpos⟩

/-- Scale by `10 ^ e` for an integer exponent `e` (used by JS `Number(...)`
string conversion for exponent notation). -/
def JQ.scalePow10 (a : JQ) (e : Int) : JQ :=
  if e < 0 then JQ.norm a.num (a.den * 10 ^ e.natAbs)
  else JQ.norm (a.num * 10 ^ e.natAbs) a.den

/-- The value of a `JQ` as a Mathlib rational, used only to transport order
facts; the program model itself computes with `JQ`. -/
def JQ.toRat (q : JQ) : ℚ := (q.num : ℚ) / (q.den : ℚ)

theorem JQ.le_iff (a b : JQ) : JQ.le a b ↔ a.toRat ≤ b.toRat := by
  unfold JQ.le JQ.toRat
  rw [div_le_div_iff₀]
  · constructor
    · intro h; exact_mod_cast h
    · intro h; exact_mod_cast h
  · exact_mod_cast Nat.pos_of_ne_zero a.dpos
  · exact_mod_cast Nat.pos_of_ne_zero b.dpos

theorem JQ.leRefl (a : JQ) : JQ.le a a := (JQ.le_iff a a).mpr le_rfl

theorem JQ.leTrans {a b c : JQ} (h1 : JQ.le a b) (h2 : JQ.le b c) : JQ.le a c :=
  (JQ.le_iff a c).mpr (le_trans ((JQ.le_iff a b).mp h1) ((JQ.le_iff b c).mp h2))

theorem JQ.leTotal (a b : JQ) : JQ.le a b ∨ JQ.le b a := by
  rcases le_total a.toRat b.toRat with h | h
  · exact Or.inl ((JQ.le_iff a b).mpr h)
  · exact Or.inr ((JQ.le_iff b a).mpr h)

/-! ## JavaScript values -/

mutual
/-- A JavaScript/JSON value.  `JSList` and `JSFields` are specialised list
types for array elements and object fields, so that the whole family is a
plain mutual inductive and functions over it are structurally recursive. -/
inductive JSVal : Type where
  | null : JSVal
  | undefined : JSVal
  | bool : Bool → JSVal
  | num : JQ → JSVal
  | str : String → JSVal
  | arr : JSList → JSVal
  | obj : JSFields → JSVal
deriving DecidableEq

inductive JSList : Type where
  | nil : JSList
  | cons : JSVal → JSList → JSList
deriving DecidableEq

inductive JSFields : Type where
  | nil : JSFields
  | cons : String → JSVal → JSFields → JSFields
deriving DecidableEq
end

/-- Build a `JSList` from a Lean list. -/
def JSList.ofList : List JSVal → JSList
  | [] => .nil
  | v :: vs => .cons v (JSList.ofList vs)

/-- View a `JSList` as a Lean list. -/
def JSList.toList : JSList → List JSVal
  | .nil => []
  | .cons v vs => v :: JSList.toList vs

/-- Build a `JSFields` from a Lean association list. -/
def JSFields.ofList : List (String × JSVal) → JSFields
  | [] => .nil
  | (k, v) :: fs => .cons k v (JSFields.ofList fs)

/-- Array literal, e.g. `jsArr [.num (JQ.ofNat 1), .str "a"]`. -/
def jsArr (xs : List JSVal) : JSVal := .arr (JSList.ofList xs)

/-- Object literal, e.g. `jsObj [("price", .str "$12")]`. -/
def jsObj (fs : List (String × JSVal)) : JSVal := .obj (JSFields.ofList fs)

/-- First binding of key `k` (object literals in this development never
repeat a key, so first-match lookup models JS objects). -/
def JSFields.lookup (k : String) : JSFields → Option JSVal
  | .nil => none
  | .cons k' v fs => if k' = k then some v else JSFields.lookup k fs

/-- JS truthiness (`ToBoolean`).  `NaN` does not occur in the model (see the
header note on numbers), so `num q` is falsy exactly when `q = 0`. -/
def JSVal.truthy : JSVal → Bool
  | .null => false
  | .undefined => false
  | .bool b => b
  | .num q => q.num != 0
  | .str s => s ≠ ""
  | .arr _ => true
  | .obj _ => true

/-- The test `v == null` (JS loose equality against `null`), true exactly for `null`
and `undefined`.  Also models the guard `if (priceStr == null)`. -/
def JSVal.isNullish : JSVal → Bool
  | .null => true
  | .undefined => true
  | _ => false

/-- JS `a || b`: `b` when `a` is falsy, else `a`. -/
def jsOr (a b : JSVal) : JSVal := if a.truthy then a else b

/-- JS `a && b`: `a` when `a` is falsy, else `b`. -/
def jsAnd (a b : JSVal) : JSVal := if a.truthy then b else a

/-- JS property access `v[k]` on a receiver that is not `null`/`undefined`:
missing properties and non-object receivers give `undefined`.  (The callers
below either pattern-match away the nullish receivers, which throw in JS, or
reach this only behind a `&&` truthiness guard.) -/
def jsGet (v : JSVal) (k : String) : JSVal :=
  match v with
  | .obj fs => (fs.lookup k).getD .undefined
  | _ => .undefined

/-! ## Kernel-reducible string helpers

Core `String.trim`, `String.toLower` and friends are implemented with
position loops that the kernel cannot evaluate, so the model uses these
character-list versions instead. -/

/-- JS whitespace (`\s`, `String.prototype.trim`), modelled by
`Char.isWhitespace` (space, tab, CR, LF); the exotic Unicode space classes
of JS are outside the fragment. -/
def jsSpace (c : Char) : Bool := c.isWhitespace

/-- Model of `String.prototype.trim`. -/
def trimString (s : String) : String :=
  String.mk (((s.toList.dropWhile jsSpace).reverse.dropWhile jsSpace).reverse)

/-- Model of `String.prototype.toLowerCase` (ASCII; accented letters are outside the
fragment). -/
def lowerString (s : String) : String := String.mk (s.toList.map Char.toLower)

/-- Model of `String.prototype.includes`: `needle` occurs as a contiguous substring. -/
def includesString (hay needle : String) : Bool :=
  hay.toList.tails.any (fun t => needle.toList.isPrefixOf t)

/-- Model of `Array.prototype.join(",")` on already-stringified elements. -/
def joinComma : List String → String
  | [] => ""
  | [s] => s
  | s :: rest => s ++ "," ++ joinComma rest

/-- The digit value of a decimal digit character. -/
def digitVal (c : Char) : Nat := c.toNat - '0'.toNat

/-- Natural number denoted by a list of decimal digit characters (empty
list denotes 0). -/
def digitsNat (cs : List Char) : Nat := cs.foldl (fun a c => a * 10 + digitVal c) 0

/-- Render `n + m / 10 ^ k` (with `m < 10 ^ k`) as a decimal numeral,
dropping trailing zeros of the fraction, e.g. `decimalString 12 2 5 = "12.05"`. -/
def decimalString (n : Nat) (k : Nat) (m : Nat) : String :=
  let frac := toString m
  let frac := String.mk (List.replicate (k - frac.length) '0') ++ frac
  let frac := String.mk ((frac.toList.reverse.dropWhile (fun c => c == '0')).reverse)
  if k = 0 ∨ frac = "" then toString n
  else toString n ++ "." ++ frac

/-- JS `Number`-to-string conversion, restricted to the modelled fragment:
rationals whose denominator divides a power of ten print as their (shortest)
decimal expansion, as JS prints the corresponding doubles.  Other rationals
(unreachable from JSON literals and `parseFloat` results) fall back to a
fraction rendering; JS exponent notation for very large/small magnitudes is
outside the fragment. -/
def jqToString (q : JQ) : String :=
  let sign := if q.num < 0 then "-" else ""
  let n := q.num.natAbs
  let d := q.den
  match (List.range 31).find? (fun k => 10 ^ k % d == 0) with
  | some k => sign ++ decimalString (n * (10 ^ k / d) / 10 ^ k) k (n * (10 ^ k / d) % 10 ^ k)
  | none => sign ++ toString n ++ "/" ++ toString d

mutual
/-- JS `ToString`.  Arrays print as their elements joined by `","` with
`null`/`undefined` elements printing as the empty string
(`Array.prototype.join`); plain objects print as `"[object Object]"`. -/
def jsToString : JSVal → String
  | .null => "null"
  | .undefined => "undefined"
  | .bool b => if b then "true" else "false"
  | .num q => jqToString q
  | .str s => s
  | .arr xs => joinComma (jsToStringElems xs)
  | .obj _ => "[object Object]"

/-- Stringify array elements for `Array.prototype.join`. -/
def jsToStringElems : JSList → List String
  | .nil => []
  | .cons v vs => (if v.isNullish then "" else jsToString v) :: jsToStringElems vs
end

/-- JS index access `v[0]`, used only behind truthiness guards.  On an
array it is the first element (or `undefined`); on an object it looks up the
key `"0"`; on a string it is the first character; otherwise `undefined`. -/
def jsIndex0 (v : JSVal) : JSVal :=
  match v with
  | .arr (.cons x _) => x
  | .arr .nil => .undefined
  | .obj fs => (fs.lookup "0").getD .undefined
  | .str s => match s.toList with
    | [] => .undefined
    | c :: _ => .str (String.mk [c])
  | _ => .undefined

/-! ## Price parsing and number conversion -/

/-- Characters kept by the first cleanup pass of `parsePrice`
(`replace(/[^\d.,]/g, '')` removes the complement of this class). -/
def priceCharClass (c : Char) : Bool := c.isDigit || c == ',' || c == '.'

/-- JS `parseFloat`, restricted to the strings `parsePrice` feeds it: after
the cleanup passes the argument consists of decimal digits and periods only,
so the sign/whitespace/exponent forms of full `parseFloat` cannot occur.  It
parses the longest `\d*(\.\d*)?` prefix and is `none` (JS `NaN`) when that
prefix contains no digit. -/
def parseFloatDec (s : String) : Option JQ :=
  let cs := s.toList
  let ip := cs.takeWhile Char.isDigit
  let rest := cs.drop ip.length
  let fp := match rest with
    | '.' :: r => r.takeWhile Char.isDigit
    | _ => []
  if ip.isEmpty && fp.isEmpty then none
  else some (JQ.add (JQ.ofNat (digitsNat ip)) (JQ.norm (digitsNat fp) (10 ^ fp.length)))

/-- Function `parsePrice` from `src/api/search.js`:
```js
function parsePrice(priceStr) {
  if (priceStr == null) return null;
  const cleaned = String(priceStr).replace(/[^\d.,]/g, '').replace(/,/g, '');
  const num = parseFloat(cleaned);
  return Number.isFinite(num) ? num : null;
}
```
`Number.isFinite` rejects exactly the `NaN` outcome in the modelled fragment
(overflow to `Infinity` needs hundreds of digits and is outside it). -/
def parsePrice (priceStr : JSVal) : JSVal :=
  if priceStr.isNullish then .null
  else
    let cleaned := String.mk
      (((jsToString priceStr).toList.filter (fun c => !(!priceCharClass c))).filter
        (fun c => !(c == ',')))
    match parseFloatDec cleaned with
    | some q => .num q
    | none => .null

/-- Signed decimal numeral with optional exponent, as accepted by JS
`Number(string)` after trimming; `none` is `NaN`.  The whole input must be
consumed (unlike `parseFloat`'s longest-prefix behaviour). -/
def parseNumberBody (cs : List Char) : Option JQ :=
  let (sgn, cs) := match cs with
    | '-' :: r => (true, r)
    | '+' :: r => (false, r)
    | r => (false, r)
  let ip := cs.takeWhile Char.isDigit
  let rest := cs.drop ip.length
  let (fp, rest) := match rest with
    | '.' :: r => (r.takeWhile Char.isDigit, r.drop (r.takeWhile Char.isDigit).length)
    | r => ([], r)
  if ip.isEmpty && fp.isEmpty then none
  else
    let mant := JQ.add (JQ.ofNat (digitsNat ip)) (JQ.norm (digitsNat fp) (10 ^ fp.length))
    let mant := if sgn then mant.neg else mant
    match rest with
    | [] => some mant
    | e :: r =>
        if e == 'e' || e == 'E' then
          let (esgn, r) := match r with
            | '-' :: r' => (true, r')
            | '+' :: r' => (false, r')
            | r' => (false, r')
          let ed := r.takeWhile Char.isDigit
          if ed.isEmpty || !(r.drop ed.length).isEmpty then none
          else some (mant.scalePow10 (if esgn then -(digitsNat ed : Int) else (digitsNat ed : Int)))
        else none

/-- JS `Number(string)`: trimmed empty string is `0`; otherwise a fully
matching signed decimal numeral (hex/binary/`Infinity` forms are outside
the fragment and conservatively map to `NaN`). -/
def strToNumber (s : String) : Option JQ :=
  let t := trimString s
  if t = "" then some (JQ.ofNat 0) else parseNumberBody t.toList

/-- JS `ToNumber`, `none` standing for `NaN`.  Arrays and objects convert
via their string form (`ToPrimitive`). -/
def jsToNumber : JSVal → Option JQ
  | .null => some (JQ.ofNat 0)
  | .undefined => none
  | .bool b => some (JQ.ofNat (if b then 1 else 0))
  | .num q => some q
  | .str s => strToNumber s
  | .arr xs => strToNumber (jsToString (.arr xs))
  | .obj fs => strToNumber (jsToString (.obj fs))

/-- Characters removed when deriving a currency symbol from the raw price
value: `replace(/[\d.,\s]/g, '')`. -/
def currencyStripClass (c : Char) : Bool := c.isDigit || c == '.' || c == ',' || jsSpace c

/-- The currency-symbol derivation
`String(priceRaw).replace(/[\d.,\s]/g, '').trim()`. -/
def currencyStrip (s : String) : String :=
  trimString (String.mk (s.toList.filter (fun c => !currencyStripClass c)))

/-! ## Offers and the normalizer -/

/-- The uniform offer record (source lines 31–39).  Field values keep their
JS types; `price` in particular is the `number | null` result of
`parsePrice`.  `raw` is `undefined` when the producing code wrote no such
property (the fallback adapter's object literal has none). -/
structure Offer where
  title : JSVal
  price : JSVal
  currency : JSVal
  image : JSVal
  link : JSVal
  merchant : JSVal
  raw : JSVal
deriving DecidableEq

/-- Line 23: `item.title || item.product_title || item.name || ''` (line 23). -/
def serpTitle (item : JSVal) : JSVal :=
  jsOr (jsOr (jsOr (jsGet item "title") (jsGet item "product_title")) (jsGet item "name"))
    (.str "")

/-- Line 24: `item.thumbnail || item.thumbnail_link || item.image ||
(item.inline_images && item.inline_images[0]) || null` (line 24). -/
def serpThumbnail (item : JSVal) : JSVal :=
  jsOr (jsOr (jsOr (jsOr (jsGet item "thumbnail") (jsGet item "thumbnail_link"))
    (jsGet item "image"))
    (jsAnd (jsGet item "inline_images") (jsIndex0 (jsGet item "inline_images")))) .null

/-- Line 25: `item.link || item.product_link || item.source || item.result_link || null`
(line 25). -/
def serpLink (item : JSVal) : JSVal :=
  jsOr (jsOr (jsOr (jsOr (jsGet item "link") (jsGet item "product_link"))
    (jsGet item "source")) (jsGet item "result_link")) .null

/-- Line 26: `item.extracted_price || item.price || (item.offers && item.offers[0] &&
(item.offers[0].price || item.offers[0].extracted_price)) || null` (line 26). -/
def serpPriceRaw (item : JSVal) : JSVal :=
  jsOr (jsOr (jsOr (jsGet item "extracted_price") (jsGet item "price"))
    (jsAnd (jsGet item "offers") (jsAnd (jsIndex0 (jsGet item "offers"))
      (jsOr (jsGet (jsIndex0 (jsGet item "offers")) "price")
        (jsGet (jsIndex0 (jsGet item "offers")) "extracted_price"))))) .null

/-- Line 27: `item.currency || (priceRaw && String(priceRaw).replace(/[\d.,\s]/g, '').trim()) || null`
(line 27). -/
def serpCurrency (item : JSVal) : JSVal :=
  jsOr (jsOr (jsGet item "currency")
    (jsAnd (serpPriceRaw item) (.str (currencyStrip (jsToString (serpPriceRaw item)))))) .null

/-- Line 29: `item.merchant || item.source || item.store || null` (line 29). -/
def serpMerchant (item : JSVal) : JSVal :=
  jsOr (jsOr (jsOr (jsGet item "merchant") (jsGet item "source")) (jsGet item "store")) .null

/-- Function `normalizeSerpItem` (lines 22–40).  Property access on a
`null`/`undefined` item throws a `TypeError`, which the handler's inner
`try` converts into the zero-results outcome; on any other value the
function is total and produces a best-effort offer. -/
def normalizeSerpItem (item : JSVal) : Except String Offer :=
  if item.isNullish then .error "TypeError: cannot read properties of null or undefined"
  else .ok {
    title := serpTitle item
    price := parsePrice (serpPriceRaw item)
    currency := serpCurrency item
    image := serpThumbnail item
    link := serpLink item
    merchant := serpMerchant item
    raw := item }

/-- The map `rawList.map(normalizeSerpItem)`: the leftmost throw aborts the map. -/
def mapNormalize : List JSVal → Except String (List Offer)
  | [] => .ok []
  | v :: vs =>
    match normalizeSerpItem v, mapNormalize vs with
    | .error e, _ => .error e
    | .ok _, .error e => .error e
    | .ok o, .ok rest => .ok (o :: rest)

/-- The filter `it => it.price != null && it.link` (line 103). -/
def offerKeep (o : Offer) : Bool := !o.price.isNullish && o.link.truthy

/-- The comparator key of `(a,b) => (a.price || 0) - (b.price || 0)`
(lines 104 and 115): `ToNumber(price || 0)`.  In the modelled fragment the
key is never `NaN` (both providers yield numeric-or-null prices, and `null`
prices were either filtered out or defaulted to `0`); a `NaN` comparator
would make the JS sort order engine-dependent, and the model then picks 0. -/
def sortKey (o : Offer) : JQ := (jsToNumber (jsOr o.price (.num (JQ.ofNat 0)))).getD (JQ.ofNat 0)

/-- Sort order of the two `.sort` calls: ascending by `sortKey`. -/
def priceLe (a b : Offer) : Prop := JQ.le (sortKey a) (sortKey b)

instance : DecidableRel priceLe := fun a b =>
  inferInstanceAs (Decidable (JQ.le (sortKey a) (sortKey b)))

instance : IsTotal Offer priceLe := ⟨fun a b => JQ.leTotal (sortKey a) (sortKey b)⟩

instance : IsTrans Offer priceLe := ⟨fun _ _ _ h1 h2 => JQ.leTrans h1 h2⟩

/-- Model of `Array.prototype.sort` with the price comparator.  ECMAScript requires
the sort to be stable and consistent with the comparator, which determines
the output uniquely; insertion sort realises exactly that specification
(and is structurally recursive, hence kernel-computable). -/
def sortByPrice (l : List Offer) : List Offer := List.insertionSort priceLe l

/-! ## The two source adapters -/

/-- Line 99: `serp.shopping_results || serp.inline_shopping_results ||
serp['shopping_results'] || []` (line 99); accessing a property of a
nullish response body throws. -/
def serpRawList (serp : JSVal) : Except String JSVal :=
  if serp.isNullish then .error "TypeError: cannot read properties of null or undefined"
  else .ok (jsOr (jsOr (jsOr (jsGet serp "shopping_results")
    (jsGet serp "inline_shopping_results")) (jsGet serp "shopping_results")) (jsArr []))

/-- The stage `map(normalize)` then `.filter(keep)`: the primary result set
after normalization and filtering, before sorting (lines 101–103). -/
def primaryPreSort (items : List JSVal) : Except String (List Offer) :=
  match mapNormalize items with
  | .error e => .error e
  | .ok offers => .ok (offers.filter offerKeep)

/-- The body of the primary `try` block after `callSerpApi` returned
`serp` (lines 99–105): extract the raw list, and when it is a non-empty
array, normalize, filter and sort it; otherwise `normalized` keeps its
initial `[]`. -/
def primaryAttempt (serp : JSVal) : Except String (List Offer) :=
  match serpRawList serp with
  | .error e => .error e
  | .ok (.arr items) =>
      if items.toList.length > 0 then
        match primaryPreSort items.toList with
        | .error e => .error e
        | .ok pre => .ok (sortByPrice pre)
      else .ok []
  | .ok _ => .ok []

/-- The filter predicate of `callFakeStore`:
`p.title && p.title.toLowerCase().includes(query.toLowerCase())` (line 63).
A nullish catalog entry throws on `p.title`; a truthy non-string `title`
throws on `.toLowerCase()`. -/
def fakeStoreKeep (query : String) (p : JSVal) : Except String Bool :=
  if p.isNullish then .error "TypeError: cannot read properties of null or undefined"
  else
    match jsGet p "title" with
    | .str s =>
        if (JSVal.str s).truthy then .ok (includesString (lowerString s) (lowerString query))
        else .ok false
    | t => if t.truthy then .error "TypeError: p.title.toLowerCase is not a function"
        else .ok false

/-- The filter `items.filter(p => ...)` with a throwing predicate; the leftmost throw
aborts the filter. -/
def filterFakeStore (query : String) : List JSVal → Except String (List JSVal)
  | [] => .ok []
  | p :: ps =>
    match fakeStoreKeep query p, filterFakeStore query ps with
    | .error e, _ => .error e
    | .ok _, .error e => .error e
    | .ok b, .ok rest => .ok (if b then p :: rest else rest)

/-- The object literal of the fallback `.map` (lines 64–71).  Note it has
no `raw` property, so `raw` is `undefined`. -/
def fakeStoreOffer (p : JSVal) : Offer :=
  { title := jsGet p "title"
    price := jsGet p "price"
    currency := .str "USD"
    image := jsGet p "image"
    link := .str ("https://fakestoreapi.com/products/" ++ jsToString (jsGet p "id"))
    merchant := .str "FakeStore"
    raw := .undefined }

/-- Function `callFakeStore` (lines 60–73), applied to the catalog `items` the
fetch-and-parse produced (a fetch/parse failure is an `Except.error` in the
`World` and never reaches this function). -/
def callFakeStore (query : String) (items : List JSVal) : Except String (List Offer) :=
  match filterFakeStore query items with
  | .error e => .error e
  | .ok kept => .ok (kept.map fakeStoreOffer)

/-! ## Cache, environment, request and response -/

/-- A cache entry `{ ts, data }` (line 119). -/
structure CacheEntry where
  ts : Int
  data : List Offer
deriving DecidableEq

/-- The process-global `Map` (line 7), as an association list: `set` conses
and `get` takes the first match, which gives exactly `Map`'s get/set
behaviour. -/
abbrev Cache := List (String × CacheEntry)

/-- Model of `cache.get(key)` (`undefined` becomes `none`). -/
def cacheGet (c : Cache) (k : String) : Option CacheEntry :=
  (c.find? (fun p => p.1 == k)).map (fun p => p.2)

/-- Model of `cache.set(key, entry)`. -/
def cacheSet (c : Cache) (k : String) (e : CacheEntry) : Cache := (k, e) :: c

/-- Constant `CACHE_TTL_MS = 1000 * 60 * 5` (line 6), in milliseconds. -/
def CACHE_TTL_MS : Int := 1000 * 60 * 5

/-- The four recognised credential environment variables (line 93); a
variable is either unset (`none`) or a string. -/
structure Env where
  SERPAPI_KEY : Option String
  SERP_API_KEY : Option String
  SERPAPIKEY : Option String
  SERP_KEY : Option String

/-- A `process.env` value as a JS value. -/
def envString : Option String → JSVal
  | none => .undefined
  | some s => .str s

/-- Line 93: `process.env.SERPAPI_KEY || process.env.SERP_API_KEY ||
process.env.SERPAPIKEY || process.env.SERP_KEY || null` (line 93). -/
def apiKeyOf (env : Env) : JSVal :=
  jsOr (jsOr (jsOr (jsOr (envString env.SERPAPI_KEY) (envString env.SERP_API_KEY))
    (envString env.SERPAPIKEY)) (envString env.SERP_KEY)) .null

/-- The request: method, `req.query.query` and `req.body`. -/
structure Req where
  method : String
  queryQuery : JSVal
  body : JSVal

/-- Everything outside the handler that one invocation consumes: the
request, the clock, the environment, and what each upstream call would
produce if issued (`error` = thrown/rejected). -/
structure World where
  req : Req
  now : Int
  env : Env
  serp : Except String JSVal
  fakeStore : Except String (List JSVal)

/-- The JSON bodies the handler can respond with. -/
inductive RespBody : Type where
  | empty : RespBody
  | err : String → RespBody
  | errDetails : String → String → RespBody
  | success : String → List Offer → RespBody
deriving DecidableEq

/-- Observable outcome of one handler invocation: HTTP status, body, the
cache after the call, whether each upstream adapter was invoked, and the
`console.error` log. -/
structure HResult where
  status : Nat
  body : RespBody
  cache : Cache
  serpCalled : Bool
  fakeStoreCalled : Bool
  logs : List String
deriving DecidableEq

/-- Line 82: `(req.query.query || (req.body && req.body.query) || '').toString().trim()`
(line 82). -/
def handlerQuery (req : Req) : String :=
  trimString (jsToString
    (jsOr (jsOr req.queryQuery (jsAnd req.body (jsGet req.body "query"))) (.str "")))

/-- The cache key `` `q:${query.toLowerCase()}` `` (line 86). -/
def cacheKeyOf (query : String) : String := "q:" ++ lowerString query

/-- The cache-hit test `cached && (Date.now() - cached.ts) < CACHE_TTL_MS`
(line 88): the entry, when present and fresh. -/
def freshEntry (c : Cache) (key : String) (now : Int) : Option CacheEntry :=
  match cacheGet c key with
  | some e => if now - e.ts < CACHE_TTL_MS then some e else none
  | none => none

/-- Lines 96–110: the primary attempt guarded by `if (apiKey)` with its
inner `try`/`catch`.  Returns the value of `normalized` afterwards together
with whatever was logged; any throw from `callSerpApi` or from the
normalization chain is caught, logged, and leaves `normalized = []`. -/
def primaryPhase (env : Env) (serp : Except String JSVal) : List Offer × List String :=
  if (apiKeyOf env).truthy then
    match serp with
    | .error e => ([], ["SerpApi error: " ++ e])
    | .ok v =>
      match primaryAttempt v with
      | .ok offers => (offers, [])
      | .error e => ([], ["SerpApi error: " ++ e])
  else ([], [])

/-- The continuation of the handler after a cache miss (lines 92–120):
primary phase, fallback when it produced nothing, cache write, response.
`query` is the trimmed query string computed on line 82. -/
def handlerMiss (w : World) (c : Cache) (query : String) : HResult :=
  let serpCalled := (apiKeyOf w.env).truthy
  let pr := primaryPhase w.env w.serp
  let normalized := pr.1
  if normalized.isEmpty then
    match w.fakeStore with
    | .error e =>
        ⟨500, .errDetails "Server error" e, c, serpCalled, true,
          pr.2 ++ ["Handler error: " ++ e]⟩
    | .ok items =>
      match callFakeStore query items with
      | .error e =>
          ⟨500, .errDetails "Server error" e, c, serpCalled, true,
            pr.2 ++ ["Handler error: " ++ e]⟩
      | .ok fb =>
          let results := sortByPrice fb
          ⟨200,
            .success (if serpCalled then "serpapi-or-fallback" else "fallback-only") results,
            cacheSet c (cacheKeyOf query) ⟨w.now, results⟩, serpCalled, true, pr.2⟩
  else
    ⟨200,
      .success (if serpCalled then "serpapi-or-fallback" else "fallback-only") normalized,
      cacheSet c (cacheKeyOf query) ⟨w.now, normalized⟩, serpCalled, false, pr.2⟩

/-- The request handler (lines 75–125).  `OPTIONS` short-circuits before
the `try`; inside it: validate the query, check the cache, and continue
with `handlerMiss`; any uncaught throw (only the fallback path can throw)
reaches the outer `catch` and becomes a 500. -/
def handler (w : World) (c : Cache) : HResult :=
  if w.req.method = "OPTIONS" then ⟨200, .empty, c, false, false, []⟩
  else
    let query := handlerQuery w.req
    if query = "" then ⟨400, .err "Missing query parameter", c, false, false, []⟩
    else
      match freshEntry c (cacheKeyOf query) w.now with
      | some e => ⟨200, .success "cache" e.data, c, false, false, []⟩
      | none => handlerMiss w c query

/-- A sequence of requests against one process: the cache starts empty at
process start (line 7) and is threaded from call to call. -/
def runTrace : List World → Cache → List HResult
  | [], _ => []
  | w :: ws, c =>
    let r := handler w c
    r :: runTrace ws r.cache

/-- The observable behaviour of a fresh server process on a request
sequence. -/
def serverTrace (ws : List World) : List HResult := runTrace ws []

/-! ## Specification-side definitions and concrete scenarios -/

/-- The Price Parser contract transcribed from the specification's words
(§4.1): null/undefined to null; otherwise coerce to text, strip every
character that is not a digit, comma, or period, then strip commas, parse
the remainder as a floating-point number, and null when the result is not
finite.  Stated independently of `parsePrice` so that the two can be
compared. -/
def parsePriceSpec (v : JSVal) : JSVal :=
  if v.isNullish then .null
  else
    let text := jsToString v
    let kept := text.toList.filter priceCharClass
    let noCommas := kept.filter (fun c => !(c == ','))
    match parseFloatDec (String.mk noCommas) with
    | some q => .num q
    | none => .null

/-- The results list is ascending by comparator key. -/
def SortedOffers (l : List Offer) : Prop := l.Pairwise priceLe

/-- Every entry stored in the cache holds a sorted offer list. -/
def CacheSorted (c : Cache) : Prop :=
  ∀ k e, cacheGet c k = some e → SortedOffers e.data

/-- The offers of a given comparator key, in order (used to state sort
stability: sorting must not reorder offers of equal price). -/
def keyIs (q : JQ) (o : Offer) : Bool := decide (sortKey o = q)

/-- A fake-store catalog item used in concrete scenarios. -/
def fsShirt : JSVal :=
  jsObj [("id", .num (JQ.ofNat 1)), ("title", .str "Blue Shirt"),
    ("price", .num (JQ.ofNat 20)), ("image", .str "img1")]

/-- A second catalog item, cheaper, listed after `fsShirt`. -/
def fsShirt2 : JSVal :=
  jsObj [("id", .num (JQ.ofNat 2)), ("title", .str "Red Shirt"),
    ("price", .num (JQ.ofNat 10)), ("image", .str "img2")]

/-- An environment with no credential configured. -/
def envNone : Env := ⟨none, none, none, none⟩

/-- An environment with the first credential variable set. -/
def envKey : Env := ⟨some "k", none, none, none⟩

/-- A fallback-only request for "shirt" at time 0 against a two-item
catalog. -/
def wShirt : World :=
  { req := { method := "GET", queryQuery := .str "shirt", body := .undefined }
    now := 0
    env := envNone
    serp := .error "unreachable (no credential)"
    fakeStore := .ok [fsShirt, fsShirt2] }

/-- An `OPTIONS` request carrying no query at all. -/
def wPreflight : World :=
  { req := { method := "OPTIONS", queryQuery := .undefined, body := .undefined }
    now := 0
    env := envNone
    serp := .error "unreachable"
    fakeStore := .ok [] }

/-- A raw primary item whose only price information is the number `0`. -/
def zeroPriceItem : JSVal :=
  jsObj [("extracted_price", .num (JQ.ofNat 0)), ("title", .str "Freebie"),
    ("link", .str "l")]

/-- The §8 normalizer example input `{ price: "$12", link: "x" }`. -/
def dollarItem : JSVal := jsObj [("price", .str "$12"), ("link", .str "x")]

/-- A primary-path scenario: credential configured, one usable serp item. -/
def wSerp : World :=
  { req := { method := "POST", queryQuery := .undefined, body := jsObj [("query", .str "A")] }
    now := 0
    env := envKey
    serp := .ok (jsObj [("shopping_results", jsArr [dollarItem])])
    fakeStore := .error "unreachable (primary succeeds)" }

/-- A scenario where the primary adapter throws and the fallback serves. -/
def wSerpDown : World :=
  { req := { method := "GET", queryQuery := .str "shirt", body := .undefined }
    now := 0
    env := envKey
    serp := .error "SerpApi HTTP 429 "
    fakeStore := .ok [fsShirt, fsShirt2] }

/-- A scenario where the primary path is empty and the fallback fetch
rejects. -/
def wFbDown : World :=
  { req := { method := "GET", queryQuery := .str "shirt", body := .undefined }
    now := 0
    env := envNone
    serp := .error "unreachable (no credential)"
    fakeStore := .error "fetch failed: ECONNREFUSED" }

/-- A `GET` request whose query is whitespace only. -/
def wEmptyQ : World :=
  { req := { method := "GET", queryQuery := .str "   ", body := .undefined }
    now := 0
    env := envNone
    serp := .error "unreachable"
    fakeStore := .ok [] }

/-- A scenario where the fallback catalog parses to `[null]`, so the
fallback filter itself throws a `TypeError`. -/
def wFbBad : World :=
  { req := { method := "GET", queryQuery := .str "shirt", body := .undefined }
    now := 0
    env := envNone
    serp := .error "unreachable (no credential)"
    fakeStore := .ok [.null] }

/-- The primary response envelope holding `dollarItem`. -/
def serpDollar : JSVal := jsObj [("shopping_results", jsArr [dollarItem])]

/-- The offer `normalizeSerpItem` produces from `dollarItem`. -/
def dollarOffer : Offer :=
  ⟨.str "", .num (JQ.ofNat 12), .str "$", .null, .str "x", .null, dollarItem⟩

/-- The offer `normalizeSerpItem` produces from `zeroPriceItem`. -/
def zeroOffer : Offer :=
  ⟨.str "Freebie", .null, .null, .null, .str "l", .null, zeroPriceItem⟩

/-! ## Lemmas about the sort -/

theorem JSList.toList_ofList (xs : List JSVal) : (JSList.ofList xs).toList = xs := by
  induction xs with
  | nil => rfl
  | cons x xs ih => simp [JSList.ofList, JSList.toList, ih]

theorem sortByPrice_sorted (l : List Offer) : SortedOffers (sortByPrice l) :=
  List.sorted_insertionSort priceLe l

theorem sortByPrice_perm (l : List Offer) : List.Perm (sortByPrice l) l :=
  List.perm_insertionSort priceLe l

/-- Stability of the price sort: for every key `q`, the offers whose
comparator key is `q` appear in the sorted list exactly in their original
order. -/
theorem sortByPrice_filter_keyIs (l : List Offer) (q : JQ) :
    (sortByPrice l).filter (keyIs q) = l.filter (keyIs q) := by
  have hmemkey : ∀ o ∈ l.filter (keyIs q), sortKey o = q := by
    intro o ho
    simpa [keyIs] using (List.mem_filter.mp ho).2
  have hpw : (l.filter (keyIs q)).Pairwise priceLe := by
    apply List.pairwise_of_forall_mem_list
    intro a ha b hb
    unfold priceLe
    rw [hmemkey a ha, hmemkey b hb]
    exact JQ.leRefl q
  have hsub : List.Sublist (l.filter (keyIs q)) (sortByPrice l) :=
    List.sublist_insertionSort hpw (List.filter_sublist l)
  have hself : (l.filter (keyIs q)).filter (keyIs q) = l.filter (keyIs q) :=
    List.filter_eq_self.mpr (fun a ha => (List.mem_filter.mp ha).2)
  have hsub2 : List.Sublist (l.filter (keyIs q)) ((sortByPrice l).filter (keyIs q)) := by
    have := hsub.filter (keyIs q)
    rwa [hself] at this
  have hlen : ((sortByPrice l).filter (keyIs q)).length = (l.filter (keyIs q)).length :=
    ((sortByPrice_perm l).filter (keyIs q)).length_eq
  exact (hsub2.eq_of_length hlen.symm).symm

/-! ## Lemmas about the primary pipeline -/

/-- Membership in a successful `map(normalizeSerpItem)` run comes from a
raw item. -/
theorem mapNormalize_mem {items : List JSVal} {l : List Offer}
    (h : mapNormalize items = .ok l) :
    ∀ o ∈ l, ∃ item ∈ items, normalizeSerpItem item = .ok o := by
  induction items generalizing l with
  | nil =>
    cases h
    intro o ho
    cases ho
  | cons v vs ih =>
    unfold mapNormalize at h
    cases hv : normalizeSerpItem v with
    | error e => rw [hv] at h; cases h
    | ok o0 =>
      rw [hv] at h
      cases hr : mapNormalize vs with
      | error e => rw [hr] at h; cases h
      | ok rest =>
        rw [hr] at h
        cases h
        intro o ho
        rcases List.mem_cons.mp ho with rfl | hmem
        · exact ⟨v, List.mem_cons_self v vs, hv⟩
        · rcases ih hr o hmem with ⟨item, hi, hn⟩
          exact ⟨item, List.mem_cons_of_mem v hi, hn⟩

/-- A successful `primaryPreSort` is the `offerKeep` filter of a successful
normalization. -/
theorem primaryPreSort_ok {items : List JSVal} {pre : List Offer}
    (h : primaryPreSort items = .ok pre) :
    ∃ norml, mapNormalize items = .ok norml ∧ pre = norml.filter offerKeep := by
  unfold primaryPreSort at h
  cases hm : mapNormalize items with
  | error e => rw [hm] at h; cases h
  | ok norml => rw [hm] at h; cases h; exact ⟨norml, rfl, rfl⟩

/-- Every offer surviving `primaryPreSort` passes the filter. -/
theorem primaryPreSort_keep {items : List JSVal} {pre : List Offer}
    (h : primaryPreSort items = .ok pre) :
    ∀ o ∈ pre, offerKeep o = true := by
  rcases primaryPreSort_ok h with ⟨norml, _, rfl⟩
  intro o ho
  exact (List.mem_filter.mp ho).2

/-- A successful `primaryAttempt` is either the empty list (no usable raw
list) or the sorted output of `primaryPreSort` on the extracted items. -/
theorem primaryAttempt_ok {serp : JSVal} {offers : List Offer}
    (h : primaryAttempt serp = .ok offers) :
    offers = [] ∨ ∃ jl pre, serpRawList serp = .ok (.arr jl) ∧
      primaryPreSort jl.toList = .ok pre ∧ offers = sortByPrice pre := by
  unfold primaryAttempt at h
  split at h
  · cases h
  · rename_i jl heq
    split at h
    · split at h
      · cases h
      · rename_i pre hp
        cases h
        exact Or.inr ⟨jl, pre, heq, hp, rfl⟩
    · cases h
      exact Or.inl rfl
  · cases h
    exact Or.inl rfl

/-- Every offer of a successful `primaryAttempt` passes the `offerKeep`
filter: the filtering happened before the sort, which only permutes. -/
theorem primaryAttempt_keep {serp : JSVal} {offers : List Offer}
    (h : primaryAttempt serp = .ok offers) :
    ∀ o ∈ offers, offerKeep o = true := by
  rcases primaryAttempt_ok h with rfl | ⟨jl, pre, _, hp, rfl⟩
  · intro o ho; cases ho
  · intro o ho
    exact primaryPreSort_keep hp o ((sortByPrice_perm pre).mem_iff.mp ho)

/-- A successful `primaryAttempt` is sorted. -/
theorem primaryAttempt_sorted {serp : JSVal} {offers : List Offer}
    (h : primaryAttempt serp = .ok offers) : SortedOffers offers := by
  rcases primaryAttempt_ok h with rfl | ⟨jl, pre, _, _, rfl⟩
  · exact List.Pairwise.nil
  · exact sortByPrice_sorted pre

/-! ## Lemmas about the cache and the handler -/

theorem cacheGet_set_self (c : Cache) (k : String) (e : CacheEntry) :
    cacheGet (cacheSet c k e) k = some e := by
  simp [cacheGet, cacheSet]

theorem cacheGet_set_other (c : Cache) {k k' : String} (h : k' ≠ k) (e : CacheEntry) :
    cacheGet (cacheSet c k e) k' = cacheGet c k' := by
  simp [cacheGet, cacheSet, List.find?_cons_of_neg, Ne.symm h]

theorem freshEntry_some {c : Cache} {key : String} {now : Int} {e : CacheEntry}
    (h : freshEntry c key now = some e) :
    cacheGet c key = some e ∧ now - e.ts < CACHE_TTL_MS := by
  unfold freshEntry at h
  split at h
  · rename_i e' he
    split at h
    · cases h; exact ⟨he, by assumption⟩
    · cases h
  · cases h

theorem freshEntry_of {c : Cache} {key : String} {now : Int} {e : CacheEntry}
    (hget : cacheGet c key = some e) (hfresh : now - e.ts < CACHE_TTL_MS) :
    freshEntry c key now = some e := by
  unfold freshEntry
  rw [hget]
  simp [hfresh]

theorem freshEntry_stale {c : Cache} {key : String} {now : Int} {e : CacheEntry}
    (hget : cacheGet c key = some e) (hst : ¬ now - e.ts < CACHE_TTL_MS) :
    freshEntry c key now = none := by
  unfold freshEntry
  rw [hget]
  simp [hst]

theorem handler_options {w : World} {c : Cache} (h : w.req.method = "OPTIONS") :
    handler w c = ⟨200, .empty, c, false, false, []⟩ := by
  unfold handler
  rw [if_pos h]

theorem handler_emptyQuery {w : World} {c : Cache} (h1 : w.req.method ≠ "OPTIONS")
    (h2 : handlerQuery w.req = "") :
    handler w c = ⟨400, .err "Missing query parameter", c, false, false, []⟩ := by
  simp [handler, h1, h2]

theorem handler_cacheHit {w : World} {c : Cache} {e : CacheEntry}
    (h1 : w.req.method ≠ "OPTIONS") (h2 : handlerQuery w.req ≠ "")
    (h3 : freshEntry c (cacheKeyOf (handlerQuery w.req)) w.now = some e) :
    handler w c = ⟨200, .success "cache" e.data, c, false, false, []⟩ := by
  simp [handler, h1, h2, h3]

theorem handler_missEq {w : World} {c : Cache}
    (h1 : w.req.method ≠ "OPTIONS") (h2 : handlerQuery w.req ≠ "")
    (h3 : freshEntry c (cacheKeyOf (handlerQuery w.req)) w.now = none) :
    handler w c = handlerMiss w c (handlerQuery w.req) := by
  simp [handler, h1, h2, h3]

theorem primaryPhase_noKey {env : Env} {serp : Except String JSVal}
    (h : (apiKeyOf env).truthy = false) : primaryPhase env serp = ([], []) := by
  simp [primaryPhase, h]

theorem primaryPhase_thrown {env : Env} {e : String}
    (h : (apiKeyOf env).truthy = true) :
    primaryPhase env (.error e) = ([], ["SerpApi error: " ++ e]) := by
  simp [primaryPhase, h]

theorem primaryPhase_attempt {env : Env} {v : JSVal} {offers : List Offer}
    (h : (apiKeyOf env).truthy = true) (ha : primaryAttempt v = .ok offers) :
    primaryPhase env (.ok v) = (offers, []) := by
  simp [primaryPhase, h, ha]

theorem primaryPhase_sorted (env : Env) (serp : Except String JSVal) :
    SortedOffers (primaryPhase env serp).1 := by
  unfold primaryPhase
  split
  · split
    · exact List.Pairwise.nil
    · split
      · rename_i ha
        exact primaryAttempt_sorted ha
      · exact List.Pairwise.nil
  · exact List.Pairwise.nil

theorem primaryPhase_keep (env : Env) (serp : Except String JSVal) :
    ∀ o ∈ (primaryPhase env serp).1, offerKeep o = true := by
  unfold primaryPhase
  split
  · split
    · intro o ho; cases ho
    · split
      · rename_i ha
        exact primaryAttempt_keep ha
      · intro o ho; cases ho
  · intro o ho; cases ho

theorem handlerMiss_primary_nonempty {w : World} {c : Cache} {query : String}
    (hne : (primaryPhase w.env w.serp).1 ≠ []) :
    handlerMiss w c query =
      ⟨200,
        .success (if (apiKeyOf w.env).truthy then "serpapi-or-fallback" else "fallback-only")
          (primaryPhase w.env w.serp).1,
        cacheSet c (cacheKeyOf query) ⟨w.now, (primaryPhase w.env w.serp).1⟩,
        (apiKeyOf w.env).truthy, false, (primaryPhase w.env w.serp).2⟩ := by
  simp [handlerMiss, hne]

theorem handlerMiss_fb_fetchErr {w : World} {c : Cache} {query msg : String}
    (hemp : (primaryPhase w.env w.serp).1 = []) (hfs : w.fakeStore = .error msg) :
    handlerMiss w c query =
      ⟨500, .errDetails "Server error" msg, c, (apiKeyOf w.env).truthy, true,
        (primaryPhase w.env w.serp).2 ++ ["Handler error: " ++ msg]⟩ := by
  simp [handlerMiss, hemp, hfs]

theorem handlerMiss_fb_mapErr {w : World} {c : Cache} {query msg : String}
    {items : List JSVal}
    (hemp : (primaryPhase w.env w.serp).1 = []) (hfs : w.fakeStore = .ok items)
    (hcf : callFakeStore query items = .error msg) :
    handlerMiss w c query =
      ⟨500, .errDetails "Server error" msg, c, (apiKeyOf w.env).truthy, true,
        (primaryPhase w.env w.serp).2 ++ ["Handler error: " ++ msg]⟩ := by
  simp [handlerMiss, hemp, hfs, hcf]

theorem handlerMiss_fb_ok {w : World} {c : Cache} {query : String}
    {items : List JSVal} {fb : List Offer}
    (hemp : (primaryPhase w.env w.serp).1 = []) (hfs : w.fakeStore = .ok items)
    (hcf : callFakeStore query items = .ok fb) :
    handlerMiss w c query =
      ⟨200,
        .success (if (apiKeyOf w.env).truthy then "serpapi-or-fallback" else "fallback-only")
          (sortByPrice fb),
        cacheSet c (cacheKeyOf query) ⟨w.now, sortByPrice fb⟩,
        (apiKeyOf w.env).truthy, true, (primaryPhase w.env w.serp).2⟩ := by
  simp [handlerMiss, hemp, hfs, hcf]

theorem cacheSorted_nil : CacheSorted [] := by
  intro k e h
  simp [cacheGet] at h

theorem cacheSorted_set {c : Cache} {k : String} {now : Int} {rs : List Offer}
    (hc : CacheSorted c) (hs : SortedOffers rs) :
    CacheSorted (cacheSet c k ⟨now, rs⟩) := by
  intro k' e' hget
  by_cases hk : k' = k
  · subst hk
    rw [cacheGet_set_self] at hget
    cases hget
    exact hs
  · rw [cacheGet_set_other _ hk] at hget
    exact hc _ _ hget

/-- One invocation keeps every cache entry sorted and only responds with
sorted result lists. -/
theorem handler_sorted_inv {w : World} {c : Cache} (hc : CacheSorted c) :
    CacheSorted (handler w c).cache ∧
      ∀ src rs, (handler w c).body = .success src rs → SortedOffers rs := by
  by_cases h1 : w.req.method = "OPTIONS"
  · rw [handler_options h1]
    exact ⟨hc, fun src rs h => by cases h⟩
  by_cases h2 : handlerQuery w.req = ""
  · rw [handler_emptyQuery h1 h2]
    exact ⟨hc, fun src rs h => by cases h⟩
  cases h3 : freshEntry c (cacheKeyOf (handlerQuery w.req)) w.now with
  | some e =>
    rw [handler_cacheHit h1 h2 h3]
    refine ⟨hc, fun src rs h => ?_⟩
    cases h
    exact hc _ _ (freshEntry_some h3).1
  | none =>
    rw [handler_missEq h1 h2 h3]
    by_cases hemp : (primaryPhase w.env w.serp).1 = []
    · cases hfs : w.fakeStore with
      | error msg =>
        rw [handlerMiss_fb_fetchErr hemp hfs]
        exact ⟨hc, fun src rs h => by cases h⟩
      | ok items =>
        cases hcf : callFakeStore (handlerQuery w.req) items with
        | error msg =>
          rw [handlerMiss_fb_mapErr hemp hfs hcf]
          exact ⟨hc, fun src rs h => by cases h⟩
        | ok fb =>
          rw [handlerMiss_fb_ok hemp hfs hcf]
          refine ⟨cacheSorted_set hc (sortByPrice_sorted fb), fun src rs h => ?_⟩
          cases h
          exact sortByPrice_sorted fb
    · rw [handlerMiss_primary_nonempty hemp]
      refine ⟨cacheSorted_set hc (primaryPhase_sorted w.env w.serp), fun src rs h => ?_⟩
      cases h
      exact primaryPhase_sorted w.env w.serp

/-- Every success response along a trace started with a sorted cache is
sorted. -/
theorem runTrace_sorted : ∀ (ws : List World) (c : Cache), CacheSorted c →
    ∀ r ∈ runTrace ws c, ∀ src rs, r.body = .success src rs → SortedOffers rs
  | [], _, _ => by
    intro r hr
    cases hr
  | w :: ws, c, hc => by
    intro r hr src rs hb
    simp only [runTrace] at hr
    rcases List.mem_cons.mp hr with rfl | hmem
    · exact (handler_sorted_inv hc).2 src rs hb
    · exact runTrace_sorted ws (handler w c).cache (handler_sorted_inv hc).1 r hmem src rs hb

/-! ## Further support lemmas -/

theorem normalizeSerpItem_ok {item : JSVal} {o : Offer}
    (h : normalizeSerpItem item = .ok o) :
    o.raw = item ∧ item.isNullish = false := by
  unfold normalizeSerpItem at h
  by_cases hn : item.isNullish
  · rw [if_pos hn] at h; cases h
  · rw [if_neg hn] at h
    cases h
    exact ⟨rfl, by simpa using hn⟩

theorem primaryAttempt_arr {serp : JSVal} {jl : JSList}
    (h : serpRawList serp = .ok (.arr jl)) :
    primaryAttempt serp =
      (if jl.toList.length > 0 then
        match primaryPreSort jl.toList with
        | .error e => .error e
        | .ok pre => .ok (sortByPrice pre)
       else .ok []) := by
  unfold primaryAttempt
  rw [h]

theorem handlerMiss_serpCalled (w : World) (c : Cache) (query : String) :
    (handlerMiss w c query).serpCalled = (apiKeyOf w.env).truthy := by
  by_cases hemp : (primaryPhase w.env w.serp).1 = []
  · cases hfs : w.fakeStore with
    | error msg => rw [handlerMiss_fb_fetchErr hemp hfs]
    | ok items =>
      cases hcf : callFakeStore query items with
      | error msg => rw [handlerMiss_fb_mapErr hemp hfs hcf]
      | ok fb => rw [handlerMiss_fb_ok hemp hfs hcf]
  · rw [handlerMiss_primary_nonempty hemp]

/-- After a cache miss, some upstream call is always issued: the primary
one when a credential is configured, and otherwise (primary output then
necessarily empty) the fallback fetch. -/
theorem handlerMiss_upstream (w : World) (c : Cache) (query : String) :
    (handlerMiss w c query).serpCalled = true ∨
      (handlerMiss w c query).fakeStoreCalled = true := by
  by_cases hk : (apiKeyOf w.env).truthy
  · left
    rw [handlerMiss_serpCalled]
    exact hk
  · right
    have hemp : (primaryPhase w.env w.serp).1 = [] := by
      rw [primaryPhase_noKey (by simpa using hk)]
    cases hfs : w.fakeStore with
    | error msg => rw [handlerMiss_fb_fetchErr hemp hfs]
    | ok items =>
      cases hcf : callFakeStore query items with
      | error msg => rw [handlerMiss_fb_mapErr hemp hfs hcf]
      | ok fb => rw [handlerMiss_fb_ok hemp hfs hcf]

/-- A cache-miss continuation that responded 200 wrote the (sorted) result
list under the query key with the current timestamp. -/
theorem handlerMiss_200 {w : World} {c : Cache} {query : String}
    (h : (handlerMiss w c query).status = 200) :
    ∃ src rs fbc logs, handlerMiss w c query =
      ⟨200, .success src rs, cacheSet c (cacheKeyOf query) ⟨w.now, rs⟩,
        (apiKeyOf w.env).truthy, fbc, logs⟩ := by
  by_cases hemp : (primaryPhase w.env w.serp).1 = []
  · cases hfs : w.fakeStore with
    | error msg =>
      rw [handlerMiss_fb_fetchErr hemp hfs] at h
      simp at h
    | ok items =>
      cases hcf : callFakeStore query items with
      | error msg =>
        rw [handlerMiss_fb_mapErr hemp hfs hcf] at h
        simp at h
      | ok fb =>
        rw [handlerMiss_fb_ok hemp hfs hcf]
        exact ⟨_, _, _, _, rfl⟩
  · rw [handlerMiss_primary_nonempty hemp]
    exact ⟨_, _, _, _, rfl⟩

/-- When an offer's `price` is an actual number, the comparator key has the
same rational value (`price || 0` only replaces a zero price by zero). -/
theorem sortKey_price_num {o : Offer} {q : JQ} (h : o.price = .num q) :
    (sortKey o).toRat = q.toRat := by
  unfold sortKey
  rw [h]
  by_cases hz : q.num = 0
  · have : (JSVal.num q).truthy = false := by simp [JSVal.truthy, hz]
    simp only [jsOr, this, Bool.false_eq_true, if_false, jsToNumber, Option.getD]
    unfold JQ.toRat
    rw [hz]
    simp [JQ.ofNat]
  · have : (JSVal.num q).truthy = true := by simp [JSVal.truthy, hz]
    simp [jsOr, this, jsToNumber]

theorem jsOr_pos {a : JSVal} (b : JSVal) (h : a.truthy = true) : jsOr a b = a := by
  simp [jsOr, h]

theorem jsOr_neg {a : JSVal} (b : JSVal) (h : a.truthy = false) : jsOr a b = b := by
  simp [jsOr, h]

theorem jsAnd_pos {a : JSVal} (b : JSVal) (h : a.truthy = true) : jsAnd a b = b := by
  simp [jsAnd, h]

theorem jsAnd_neg {a : JSVal} (b : JSVal) (h : a.truthy = false) : jsAnd a b = a := by
  simp [jsAnd, h]

/-! ## Claim theorems -/

/-- C5: `parsePrice` maps `null`/`undefined` to `null`; every other input
is coerced to text, stripped of every character that is not a digit, comma
or period, stripped of commas, and parsed as a float, with `null` for a
non-finite result — i.e. it agrees everywhere with the specification's
transcription `parsePriceSpec`; in particular
`parsePrice("₹1,299.50") = 1299.5`, `parsePrice(null) = null` (and
likewise for `undefined`), and `parsePrice("abc") = null`. -/
theorem C5_parsePrice_spec :
    (∀ v, parsePrice v = parsePriceSpec v) ∧
      parsePrice (.str "₹1,299.50") = .num (JQ.norm 12995 10) ∧
      parsePrice .null = .null ∧ parsePrice .undefined = .null ∧
      parsePrice (.str "abc") = .null := by
  refine ⟨?_, by decide, rfl, rfl, rfl⟩
  intro v
  simp [parsePrice, parsePriceSpec, Bool.not_not]

/-- C7 counterexample: a request whose query is empty is not answered 400
when its method is `OPTIONS` — the preflight short-circuit on line 78
returns 200 before the query is even read, refuting "responds 400
regardless of method". -/
theorem C7_counterexample :
    handlerQuery wPreflight.req = "" ∧ wPreflight.req.method = "OPTIONS" ∧
      (handler wPreflight []).status = 200 ∧ ¬ (handler wPreflight []).status = 400 := by
  exact ⟨rfl, rfl, rfl, by decide⟩

/-- C7 (amended): for every request that is not an `OPTIONS` preflight
(which short-circuits to 200 before validation), a query that is empty or
whitespace-only after trimming — whether it arrived in the GET query
string or in the POST body — is answered 400 with
`{ "error": "Missing query parameter" }`, with no upstream calls and no
cache write. -/
theorem C7_empty_query_400 {w : World} {c : Cache}
    (h1 : w.req.method ≠ "OPTIONS") (h2 : handlerQuery w.req = "") :
    handler w c = ⟨400, .err "Missing query parameter", c, false, false, []⟩ :=
  handler_emptyQuery h1 h2

/-- C7 witness: a whitespace-only GET query is answered 400. -/
theorem C7_witness :
    handler wEmptyQ [] = ⟨400, .err "Missing query parameter", [], false, false, []⟩ :=
  C7_empty_query_400 (by decide) (by decide)

/-- C8: when the primary path produced nothing and the fallback source
fails — either the fetch/parse of the catalog rejects, or the fallback
filtering itself throws — the failure is not recovered anywhere below the
outermost boundary: the handler responds 500 with
`{ "error": "Server error", "details": <message> }`, and nothing is
cached. -/
theorem C8_fallback_failure_500 {w : World} {c : Cache}
    (h1 : w.req.method ≠ "OPTIONS") (h2 : handlerQuery w.req ≠ "")
    (h3 : freshEntry c (cacheKeyOf (handlerQuery w.req)) w.now = none)
    (hemp : (primaryPhase w.env w.serp).1 = []) :
    (∀ msg, w.fakeStore = .error msg →
      handler w c = ⟨500, .errDetails "Server error" msg, c, (apiKeyOf w.env).truthy, true,
        (primaryPhase w.env w.serp).2 ++ ["Handler error: " ++ msg]⟩) ∧
    (∀ msg items, w.fakeStore = .ok items →
      callFakeStore (handlerQuery w.req) items = .error msg →
      handler w c = ⟨500, .errDetails "Server error" msg, c, (apiKeyOf w.env).truthy, true,
        (primaryPhase w.env w.serp).2 ++ ["Handler error: " ++ msg]⟩) := by
  constructor
  · intro msg hfs
    rw [handler_missEq h1 h2 h3, handlerMiss_fb_fetchErr hemp hfs]
  · intro msg items hfs hcf
    rw [handler_missEq h1 h2 h3, handlerMiss_fb_mapErr hemp hfs hcf]

/-- C8 witness: a rejected catalog fetch, and a catalog whose filtering
throws, each produce the 500 with details. -/
theorem C8_witness :
    handler wFbDown [] =
      ⟨500, .errDetails "Server error" "fetch failed: ECONNREFUSED", [], false, true,
        ["Handler error: " ++ "fetch failed: ECONNREFUSED"]⟩ ∧
    handler wFbBad [] =
      ⟨500, .errDetails "Server error" "TypeError: cannot read properties of null or undefined",
        [], false, true,
        ["Handler error: " ++ "TypeError: cannot read properties of null or undefined"]⟩ :=
  ⟨(@C8_fallback_failure_500 wFbDown [] (by decide) (by decide) rfl rfl).1 _ rfl,
   (@C8_fallback_failure_500 wFbBad [] (by decide) (by decide) rfl rfl).2 _ _ rfl rfl⟩

/-- C3: when a credential is configured and `callSerpApi` throws (non-2xx
upstream status or network failure), the handler logs
`SerpApi error: <message>`, treats the primary path as zero results, calls
the fallback adapter, and still responds 200 with the sorted fallback
data, caching it; the primary failure appears nowhere in the response. -/
theorem C3_primary_failure_recovered {w : World} {c : Cache} {e : String}
    {items : List JSVal} {fb : List Offer}
    (h1 : w.req.method ≠ "OPTIONS") (h2 : handlerQuery w.req ≠ "")
    (h3 : freshEntry c (cacheKeyOf (handlerQuery w.req)) w.now = none)
    (hk : (apiKeyOf w.env).truthy = true) (hs : w.serp = .error e)
    (hfs : w.fakeStore = .ok items)
    (hcf : callFakeStore (handlerQuery w.req) items = .ok fb) :
    handler w c =
      ⟨200, .success "serpapi-or-fallback" (sortByPrice fb),
        cacheSet c (cacheKeyOf (handlerQuery w.req)) ⟨w.now, sortByPrice fb⟩, true, true,
        ["SerpApi error: " ++ e]⟩ := by
  have hpp : primaryPhase w.env w.serp = ([], ["SerpApi error: " ++ e]) := by
    rw [hs]
    exact primaryPhase_thrown hk
  rw [handler_missEq h1 h2 h3, handlerMiss_fb_ok (by rw [hpp]) hfs hcf]
  simp [hpp, hk]

/-- C3 witness: primary throws `SerpApi HTTP 429`, fallback serves the two
shirts sorted by price, response is 200. -/
theorem C3_witness :
    handler wSerpDown [] =
      ⟨200,
        .success "serpapi-or-fallback"
          (sortByPrice [fakeStoreOffer fsShirt, fakeStoreOffer fsShirt2]),
        cacheSet [] (cacheKeyOf (handlerQuery wSerpDown.req))
          ⟨0, sortByPrice [fakeStoreOffer fsShirt, fakeStoreOffer fsShirt2]⟩, true, true,
        ["SerpApi error: " ++ "SerpApi HTTP 429 "]⟩ :=
  C3_primary_failure_recovered (by decide) (by decide) rfl rfl rfl rfl rfl

/-- C6: the normalizer resolves `currency` as: the item's `currency` field
when it is non-empty (truthy, matching §4.2's "first non-empty wins"
policy), otherwise — when the raw price value is non-empty — the price
value's string form stripped of digits, periods, commas and whitespace
(empty strip giving `null`), otherwise `null`; and the §8 example
`normalize({ price: "$12", link: "x" })` yields `price = 12`,
`link = "x"`, `currency = "$"`. -/
theorem C6_currency_resolution :
    (∀ item : JSVal, item.isNullish = false →
      ∃ o, normalizeSerpItem item = .ok o ∧
        o.currency =
          (if (jsGet item "currency").truthy then jsGet item "currency"
           else if (serpPriceRaw item).truthy then
             (if currencyStrip (jsToString (serpPriceRaw item)) = "" then .null
              else .str (currencyStrip (jsToString (serpPriceRaw item))))
           else .null)) ∧
    normalizeSerpItem dollarItem = .ok dollarOffer := by
  refine ⟨?_, rfl⟩
  intro item hin
  have ho : normalizeSerpItem item = .ok
      ⟨serpTitle item, parsePrice (serpPriceRaw item), serpCurrency item,
       serpThumbnail item, serpLink item, serpMerchant item, item⟩ := by
    simp [normalizeSerpItem, hin]
  refine ⟨_, ho, ?_⟩
  show serpCurrency item = _
  unfold serpCurrency
  cases hc : (jsGet item "currency").truthy with
  | true =>
    rw [jsOr_pos _ hc, jsOr_pos _ hc]
    simp
  | false =>
    rw [jsOr_neg _ hc]
    cases hp : (serpPriceRaw item).truthy with
    | false =>
      rw [jsAnd_neg _ hp, jsOr_neg _ hp]
      simp
    | true =>
      rw [jsAnd_pos _ hp]
      by_cases hstrip : currencyStrip (jsToString (serpPriceRaw item)) = ""
      · rw [hstrip]
        simp [jsOr, JSVal.truthy]
      · simp [jsOr, JSVal.truthy, hstrip]

/-- C6 witness: the resolution rule applied to the §8 example item. -/
theorem C6_witness :
    ∃ o, normalizeSerpItem dollarItem = .ok o ∧
      o.currency =
        (if (jsGet dollarItem "currency").truthy then jsGet dollarItem "currency"
         else if (serpPriceRaw dollarItem).truthy then
           (if currencyStrip (jsToString (serpPriceRaw dollarItem)) = "" then .null
            else .str (currencyStrip (jsToString (serpPriceRaw dollarItem))))
         else .null) :=
  C6_currency_resolution.1 dollarItem rfl

/-- C10: JS truthiness in the price alias chain treats the number 0 as
absent: an item whose `extracted_price` is 0 and whose other price
aliases, and `currency` field, are falsy normalizes to `price = null` and
`currency = null`, and consequently no successful primary result set
contains its offer. -/
theorem C10_zero_price_excluded {item : JSVal}
    (hin : item.isNullish = false)
    (hep : jsGet item "extracted_price" = .num (JQ.ofNat 0))
    (hp : (jsGet item "price").truthy = false)
    (hof : (jsGet item "offers").truthy = false)
    (hcu : (jsGet item "currency").truthy = false) :
    ∃ o, normalizeSerpItem item = .ok o ∧ o.price = .null ∧ o.currency = .null ∧
      ∀ serp offers, primaryAttempt serp = .ok offers → o ∉ offers := by
  have hpr : serpPriceRaw item = .null := by
    have hEP : (jsGet item "extracted_price").truthy = false := by
      rw [hep]
      rfl
    unfold serpPriceRaw
    rw [jsOr_neg _ hEP, jsOr_neg _ hp, jsAnd_neg _ hof, jsOr_neg _ hof]
  have hcur : serpCurrency item = .null := by
    unfold serpCurrency
    rw [hpr]
    rw [jsAnd_neg _ (show JSVal.null.truthy = false from rfl), jsOr_neg _ hcu,
      jsOr_neg _ (show JSVal.null.truthy = false from rfl)]
  have ho : normalizeSerpItem item = .ok
      ⟨serpTitle item, parsePrice (serpPriceRaw item), serpCurrency item,
       serpThumbnail item, serpLink item, serpMerchant item, item⟩ := by
    simp [normalizeSerpItem, hin]
  have hprice : parsePrice (serpPriceRaw item) = .null := by
    rw [hpr]
    rfl
  refine ⟨_, ho, hprice, hcur, ?_⟩
  intro serp offers hok hmem
  have hkeep := primaryAttempt_keep hok _ hmem
  simp [offerKeep, hprice, JSVal.isNullish] at hkeep

/-- C10 witness: the concrete zero-priced item is normalized to null price
and currency and excluded. -/
theorem C10_witness :
    ∃ o, normalizeSerpItem zeroPriceItem = .ok o ∧ o.price = .null ∧ o.currency = .null ∧
      ∀ serp offers, primaryAttempt serp = .ok offers → o ∉ offers :=
  C10_zero_price_excluded (by decide) (by decide) (by decide) (by decide) (by decide)

/-- C2: each offer of a successful primary attempt has a non-null price
and a truthy link; a normalized offer failing the filter is excluded from
the filtered set entirely; and the filtering happens before the sort — a
successful primary attempt is a permutation of the already-filtered
normalization output. -/
theorem C2_primary_filter_invariant :
    (∀ serp offers, primaryAttempt serp = .ok offers →
      ∀ o ∈ offers, o.price.isNullish = false ∧ o.link.truthy = true) ∧
    (∀ items norml, mapNormalize items = .ok norml →
      ∀ o ∈ norml, offerKeep o = false → o ∉ norml.filter offerKeep) ∧
    (∀ serp jl offers pre, serpRawList serp = .ok (.arr jl) →
      primaryPreSort jl.toList = .ok pre → primaryAttempt serp = .ok offers →
      List.Perm offers pre) := by
  refine ⟨?_, ?_, ?_⟩
  · intro serp offers hok o ho
    have hk := primaryAttempt_keep hok o ho
    simp only [offerKeep, Bool.and_eq_true, Bool.not_eq_true'] at hk
    exact hk
  · intro items norml hm o ho hkeep hmem
    have := (List.mem_filter.mp hmem).2
    rw [hkeep] at this
    cases this
  · intro serp jl offers pre hrl hpre hok
    rw [primaryAttempt_arr hrl] at hok
    by_cases hlen : jl.toList.length > 0
    · rw [if_pos hlen, hpre] at hok
      cases hok
      exact sortByPrice_perm pre
    · rw [if_neg hlen] at hok
      cases hok
      have hnil : jl.toList = [] := List.length_eq_zero.mp (by omega)
      rw [hnil] at hpre
      have h0 : (Except.ok ([] : List Offer) : Except String (List Offer)) = .ok pre := hpre
      cases h0
      exact List.Perm.refl []

/-- C2 witness: the dollar item survives with price and link; the
zero-priced offer is excluded; and the singleton primary attempt is a
permutation of its pre-sort list. -/
theorem C2_witness :
    (dollarOffer.price.isNullish = false ∧ dollarOffer.link.truthy = true) ∧
    zeroOffer ∉ [zeroOffer].filter offerKeep ∧
    List.Perm [dollarOffer] [dollarOffer] :=
  ⟨C2_primary_filter_invariant.1 serpDollar [dollarOffer] rfl dollarOffer (by decide),
   C2_primary_filter_invariant.2.1 [zeroPriceItem] [zeroOffer] rfl zeroOffer (by decide) rfl,
   C2_primary_filter_invariant.2.2 serpDollar (JSList.ofList [dollarItem]) [dollarOffer]
     [dollarOffer] rfl rfl rfl⟩

/-- C9 counterexample: a successful (200) fallback response whose offers
have `raw = undefined` — the fallback adapter's object literal (lines
64–71) carries no `raw` property — although the original provider records
are non-nullish objects; so it is not the case that every offer of a
successful response carries the original provider record in `raw`. -/
theorem C9_counterexample :
    (handler wShirt []).status = 200 ∧
    (handler wShirt []).body =
      .success "fallback-only" [fakeStoreOffer fsShirt2, fakeStoreOffer fsShirt] ∧
    (fakeStoreOffer fsShirt2).raw = .undefined ∧
    (fakeStoreOffer fsShirt2).raw ≠ fsShirt2 ∧ (fakeStoreOffer fsShirt).raw ≠ fsShirt := by
  exact ⟨rfl, by decide, rfl, by decide, by decide⟩

/-- C9 (amended): offers produced by the primary path carry the original
(non-nullish) provider record in `raw`; offers produced by the fallback
path carry no `raw` property (`undefined`). -/
theorem C9_raw_field :
    (∀ serp jl offers, serpRawList serp = .ok (.arr jl) →
      primaryAttempt serp = .ok offers →
      ∀ o ∈ offers, ∃ item ∈ jl.toList, normalizeSerpItem item = .ok o ∧
        o.raw = item ∧ item.isNullish = false) ∧
    (∀ query items fb, callFakeStore query items = .ok fb →
      ∀ o ∈ fb, o.raw = .undefined) := by
  constructor
  · intro serp jl offers hrl hok o ho
    rw [primaryAttempt_arr hrl] at hok
    by_cases hlen : jl.toList.length > 0
    · rw [if_pos hlen] at hok
      cases hpre : primaryPreSort jl.toList with
      | error e => rw [hpre] at hok; cases hok
      | ok pre =>
        rw [hpre] at hok
        cases hok
        have ho' : o ∈ pre := (sortByPrice_perm pre).mem_iff.mp ho
        rcases primaryPreSort_ok hpre with ⟨norml, hm, rfl⟩
        rcases mapNormalize_mem hm o (List.mem_filter.mp ho').1 with ⟨item, hin, hni⟩
        rcases normalizeSerpItem_ok hni with ⟨hraw, hnn⟩
        exact ⟨item, hin, hni, hraw, hnn⟩
    · rw [if_neg hlen] at hok
      cases hok
      cases ho
  · intro query items fb hcf o ho
    unfold callFakeStore at hcf
    cases hf : filterFakeStore query items with
    | error e => rw [hf] at hcf; cases hcf
    | ok kept =>
      rw [hf] at hcf
      cases hcf
      rcases List.mem_map.mp ho with ⟨p, _, rfl⟩
      rfl

/-- C9 witness: both halves of the amended claim at concrete inputs. -/
theorem C9_witness :
    (∃ item ∈ (JSList.ofList [dollarItem]).toList,
      normalizeSerpItem item = .ok dollarOffer ∧ dollarOffer.raw = item ∧
        item.isNullish = false) ∧
    (fakeStoreOffer fsShirt).raw = .undefined :=
  ⟨C9_raw_field.1 serpDollar (JSList.ofList [dollarItem]) [dollarOffer] rfl rfl dollarOffer
      (by decide),
   C9_raw_field.2 "shirt" [fsShirt] [fakeStoreOffer fsShirt] rfl (fakeStoreOffer fsShirt)
      (by decide)⟩

/-- C1: (a) in every run of a fresh server process, every response whose
status is 200 and whose body carries a `results` array is sorted ascending
by the price comparator key — for all `i < j`,
`key(results[i]) ≤ key(results[j])`, where the key coincides with the
`price` value whenever `price` is a number (second half of the
conclusion); and the sort is stable: (b) a successful primary attempt
lists the offers of each price key in exactly the order the
normalization-and-filtering step (`primaryPreSort`) produced them, and
(c) the fallback sort lists the offers of each price key in exactly the
order the fallback filtering (`callFakeStore`) produced them. -/
theorem C1_results_sorted_stable :
    (∀ ws r, r ∈ serverTrace ws → r.status = 200 →
      ∀ src rs, r.body = .success src rs →
      ∀ i j (hi : i < rs.length) (hj : j < rs.length), i < j →
        JQ.le (sortKey (rs.get ⟨i, hi⟩)) (sortKey (rs.get ⟨j, hj⟩)) ∧
        ∀ qi qj, (rs.get ⟨i, hi⟩).price = .num qi → (rs.get ⟨j, hj⟩).price = .num qj →
          JQ.le qi qj) ∧
    (∀ serp jl offers pre, serpRawList serp = .ok (.arr jl) →
      primaryPreSort jl.toList = .ok pre → primaryAttempt serp = .ok offers →
      ∀ q, offers.filter (keyIs q) = pre.filter (keyIs q)) ∧
    (∀ query items fb, callFakeStore query items = .ok fb →
      ∀ q, (sortByPrice fb).filter (keyIs q) = fb.filter (keyIs q)) := by
  refine ⟨?_, ?_, ?_⟩
  · intro ws r hr h200 src rs hb i j hi hj hij
    have hs : SortedOffers rs := runTrace_sorted ws [] cacheSorted_nil r hr src rs hb
    have hle : priceLe (rs.get ⟨i, hi⟩) (rs.get ⟨j, hj⟩) := by
      have := List.pairwise_iff_getElem.mp hs i j hi hj hij
      simpa [List.get_eq_getElem] using this
    refine ⟨hle, ?_⟩
    intro qi qj hqi hqj
    rw [JQ.le_iff, ← sortKey_price_num hqi, ← sortKey_price_num hqj, ← JQ.le_iff]
    exact hle
  · intro serp jl offers pre hrl hpre hok q
    rw [primaryAttempt_arr hrl] at hok
    by_cases hlen : jl.toList.length > 0
    · rw [if_pos hlen, hpre] at hok
      cases hok
      exact sortByPrice_filter_keyIs pre q
    · rw [if_neg hlen] at hok
      cases hok
      have hnil : jl.toList = [] := List.length_eq_zero.mp (by omega)
      rw [hnil] at hpre
      have h0 : (Except.ok ([] : List Offer) : Except String (List Offer)) = .ok pre := hpre
      cases h0
      rfl
  · intro query items fb hcf q
    exact sortByPrice_filter_keyIs fb q

/-- C1 witness: the two-shirt fallback response is sorted (10 before 20),
and both stability conjuncts at concrete inputs. -/
theorem C1_witness :
    (JQ.le (sortKey ([fakeStoreOffer fsShirt2, fakeStoreOffer fsShirt].get ⟨0, by decide⟩))
        (sortKey ([fakeStoreOffer fsShirt2, fakeStoreOffer fsShirt].get ⟨1, by decide⟩)) ∧
      JQ.le (JQ.ofNat 10) (JQ.ofNat 20)) ∧
    [dollarOffer].filter (keyIs (JQ.ofNat 12)) = [dollarOffer].filter (keyIs (JQ.ofNat 12)) ∧
    (sortByPrice [fakeStoreOffer fsShirt, fakeStoreOffer fsShirt2]).filter
        (keyIs (JQ.ofNat 10)) =
      [fakeStoreOffer fsShirt, fakeStoreOffer fsShirt2].filter (keyIs (JQ.ofNat 10)) := by
  have h := C1_results_sorted_stable.1 [wShirt] (handler wShirt [])
    (List.mem_cons_self _ _) rfl "fallback-only"
    [fakeStoreOffer fsShirt2, fakeStoreOffer fsShirt] (by decide) 0 1 (by decide) (by decide)
    (by decide)
  refine ⟨⟨h.1, h.2 (JQ.ofNat 10) (JQ.ofNat 20) (by decide) (by decide)⟩, ?_, ?_⟩
  · exact C1_results_sorted_stable.2.1 serpDollar (JSList.ofList [dollarItem]) [dollarOffer]
      [dollarOffer] rfl rfl rfl (JQ.ofNat 12)
  · exact C1_results_sorted_stable.2.2 "shirt" [fsShirt, fsShirt2]
      [fakeStoreOffer fsShirt, fakeStoreOffer fsShirt2] rfl (JQ.ofNat 10)

/-- C4: for a non-empty query, (i) a cache miss that completes with 200
writes the final offer list (possibly empty) under the lower-cased trimmed
query key with the current timestamp; (ii) an identical query repeated
within the 5-minute window is answered 200 from the cache — source
`"cache"`, same results, no upstream call of either kind, no cache write;
(iii) an identical query repeated once the window has elapsed misses the
cache and issues a fresh upstream call (the primary one when a credential
is configured, otherwise the fallback fetch). -/
theorem C4_cache_behaviour {w1 w2 w3 : World} {c0 : Cache}
    (h1a : w1.req.method ≠ "OPTIONS") (h1b : handlerQuery w1.req ≠ "")
    (h1c : freshEntry c0 (cacheKeyOf (handlerQuery w1.req)) w1.now = none)
    (h1d : (handler w1 c0).status = 200)
    (h2a : w2.req.method ≠ "OPTIONS") (h2q : handlerQuery w2.req = handlerQuery w1.req)
    (h2t : w2.now - w1.now < CACHE_TTL_MS)
    (h3a : w3.req.method ≠ "OPTIONS") (h3q : handlerQuery w3.req = handlerQuery w1.req)
    (h3t : ¬ w3.now - w1.now < CACHE_TTL_MS) :
    ∃ src rs,
      (handler w1 c0).body = .success src rs ∧
      cacheGet (handler w1 c0).cache (cacheKeyOf (handlerQuery w1.req)) =
        some ⟨w1.now, rs⟩ ∧
      handler w2 (handler w1 c0).cache =
        ⟨200, .success "cache" rs, (handler w1 c0).cache, false, false, []⟩ ∧
      ((handler w3 (handler w1 c0).cache).serpCalled = true ∨
        (handler w3 (handler w1 c0).cache).fakeStoreCalled = true) := by
  have hq1 : handler w1 c0 = handlerMiss w1 c0 (handlerQuery w1.req) :=
    handler_missEq h1a h1b h1c
  rw [hq1] at h1d
  rcases handlerMiss_200 h1d with ⟨src, rs, fbc, logs, hr1⟩
  rw [hq1, hr1]
  have h2b : handlerQuery w2.req ≠ "" := by rw [h2q]; exact h1b
  have h3b : handlerQuery w3.req ≠ "" := by rw [h3q]; exact h1b
  refine ⟨src, rs, rfl, cacheGet_set_self _ _ _, ?_, ?_⟩
  · have hfresh : freshEntry
        (cacheSet c0 (cacheKeyOf (handlerQuery w1.req)) ⟨w1.now, rs⟩)
        (cacheKeyOf (handlerQuery w2.req)) w2.now = some ⟨w1.now, rs⟩ := by
      rw [h2q]
      exact freshEntry_of (cacheGet_set_self _ _ _) (by simpa using h2t)
    exact handler_cacheHit h2a h2b hfresh
  · have hstale : freshEntry
        (cacheSet c0 (cacheKeyOf (handlerQuery w1.req)) ⟨w1.now, rs⟩)
        (cacheKeyOf (handlerQuery w3.req)) w3.now = none := by
      rw [h3q]
      exact freshEntry_stale (cacheGet_set_self _ _ _) (by simpa using h3t)
    rw [handler_missEq h3a h3b hstale]
    exact handlerMiss_upstream _ _ _

/-- C4 witness: the shirt query at `t = 0` writes the cache; the same
query at `t = 299999` (inside the window) is served from the cache with no
upstream call; the same query at `t = 300000` (window elapsed) issues an
upstream call again. -/
theorem C4_witness :
    ∃ src rs,
      (handler wShirt []).body = .success src rs ∧
      cacheGet (handler wShirt []).cache (cacheKeyOf (handlerQuery wShirt.req)) =
        some ⟨wShirt.now, rs⟩ ∧
      handler { wShirt with now := 299999 } (handler wShirt []).cache =
        ⟨200, .success "cache" rs, (handler wShirt []).cache, false, false, []⟩ ∧
      ((handler { wShirt with now := 300000 } (handler wShirt []).cache).serpCalled = true ∨
        (handler { wShirt with now := 300000 } (handler wShirt []).cache).fakeStoreCalled
          = true) :=
  C4_cache_behaviour (by decide) (by decide) rfl rfl (by decide) rfl (by decide) (by decide)
    rfl (by decide)

/-- C5 witness: the code-side and spec-side parsers agree at a sample
input. -/
theorem C5_witness : parsePrice (.str "10.5") = parsePriceSpec (.str "10.5") :=
  C5_parsePrice_spec.1 (.str "10.5")
